import Mathlib

/-!
Shallow embedding of the 311 service-request triage pipeline
(`backend/classify_311.py`, `backend/extractor.py`, `backend/pipeline.py`,
and the dict-based variant `pipeline.py`).

External effects are made explicit parameters:
* the LLM capability call is a `CapabilityOutcome` value (`raises` models an
  exception thrown by the call itself, `parsed v` a completed call whose
  `message.parsed` field is `v` — `none` when the response was not parsed);
* wall-clock timestamps are a `Timestamps` record of the three formatted
  strings the code derives from `datetime.now()`;
* the database write in `process_and_save_request` is an
  `Except String (String × String)` value (error message, or
  request id and created-at metadata).

Python dictionaries returned by the pipeline are embedded as structures whose
fields are `Option`-valued: `none` means the key is absent from the dict.
A function that lets an exception escape is embedded with an `Option` result,
`none` standing for the propagated exception.
-/

namespace Svc311

/-- Outcome of one call to an external LLM capability returning values of
type `α`: the call itself may raise, or complete with a `parsed` payload
that may be absent (`none` models `message.parsed is None`). -/
inductive CapabilityOutcome (α : Type) where
  | raises : CapabilityOutcome α
  | parsed : Option α → CapabilityOutcome α
  deriving DecidableEq

/-- `RequestRecommendation` enum from `backend/classify_311.py`. -/
inductive RequestRecommendation where
  | REDIRECT_TO_911
  | EXPEDITE
  | REDIRECT_TO_OTHER_SERVICE
  | PROCESS_NORMALLY
  deriving DecidableEq

/-- The string value of each `RequestRecommendation` member (it is a `str` enum). -/
def RequestRecommendation.val : RequestRecommendation → String
  | .REDIRECT_TO_911 => "REDIRECT_TO_911"
  | .EXPEDITE => "EXPEDITE"
  | .REDIRECT_TO_OTHER_SERVICE => "REDIRECT_TO_OTHER_SERVICE"
  | .PROCESS_NORMALLY => "PROCESS_NORMALLY"

/-- `PreClassificationResult` model from `backend/classify_311.py`. -/
structure PreClassificationResult where
  is_emergency : Bool
  belongs_in_311 : Bool
  reason : String
  recommendation : RequestRecommendation := .PROCESS_NORMALLY
  deriving DecidableEq

/-- The structured payload the classification capability returns
(`is_emergency`, `belongs_in_311`, `reason`); the `recommendation` field of
the parsed model before the orchestrator overwrites it. -/
structure ClassifierPayload where
  is_emergency : Bool
  belongs_in_311 : Bool
  reason : String
  recommendation : RequestRecommendation := .PROCESS_NORMALLY
  deriving DecidableEq

/-- The recommendation-resolution chain from `pre_classify_request`
(`backend/classify_311.py` lines 130–137). -/
def resolveRecommendation (is_emergency belongs_in_311 : Bool) :
    RequestRecommendation :=
  if is_emergency && !belongs_in_311 then .REDIRECT_TO_911
  else if is_emergency then .EXPEDITE
  else if !belongs_in_311 then .REDIRECT_TO_OTHER_SERVICE
  else .PROCESS_NORMALLY

/-- The default result returned by `pre_classify_request` when reading or
parsing the completed response fails (`backend/classify_311.py` lines 145–150). -/
def failClosedDefault : PreClassificationResult :=
  { is_emergency := false
    belongs_in_311 := true
    reason := "Error processing request, defaulting to normal handling"
    recommendation := .PROCESS_NORMALLY }

/-- `pre_classify_request` from `backend/classify_311.py`.  The
`client.beta.chat.completions.parse` call sits *outside* the `try` block, so
an exception raised by the call itself propagates to the caller (`none`).
Inside the `try`, a missing parsed payload raises an `AttributeError` that is
caught and turned into the fail-closed default; a parsed payload has its
`recommendation` recomputed from the two booleans. -/
def pre_classify_request (cap : CapabilityOutcome ClassifierPayload) :
    Option PreClassificationResult :=
  match cap with
  | .raises => none
  | .parsed none => some failClosedDefault
  | .parsed (some p) =>
      some { is_emergency := p.is_emergency
             belongs_in_311 := p.belongs_in_311
             reason := p.reason
             recommendation := resolveRecommendation p.is_emergency p.belongs_in_311 }

/-- `ServiceRequestPriority` enum from `backend/extractor.py`. -/
inductive ServiceRequestPriority where
  | HIGH
  | MEDIUM
  | LOW
  | CRITICAL
  deriving DecidableEq

/-- The string value of each `ServiceRequestPriority` member (a `str` enum),
which is what `model_dump` puts into the response dict. -/
def ServiceRequestPriority.val : ServiceRequestPriority → String
  | .HIGH => "HIGH"
  | .MEDIUM => "MEDIUM"
  | .LOW => "LOW"
  | .CRITICAL => "CRITICAL"

/-- The three formatted timestamp strings `extract_311_request` computes from
`datetime.now()`: `now`, `now + 1 day` and `now + 3 days`. -/
structure Timestamps where
  create_ts : String
  update_ts : String
  close_ts : String
  deriving DecidableEq

/-- `ServiceRequest` model from `backend/extractor.py`. -/
structure ServiceRequest where
  service_type : String
  service_subtype : String
  location_address : String
  location_details : Option String
  description : String
  priority : ServiceRequestPriority
  additional_notes : Option String := none
  create_timestamp : Option String := none
  update_timestamp : Option String := none
  close_timestamp : Option String := none
  deriving DecidableEq

/-- The default `ServiceRequest` built in the `except` handler of
`extract_311_request` (`backend/extractor.py` lines 116–129). -/
def default_service_request (ts : Timestamps) : ServiceRequest :=
  { service_type := "Unknown"
    service_subtype := "Unknown"
    location_address := "Unknown"
    location_details := some "Unknown"
    description := "Error processing request"
    priority := .MEDIUM
    additional_notes := some "Error occurred during processing"
    create_timestamp := some ts.create_ts
    update_timestamp := some ts.update_ts
    close_timestamp := some ts.close_ts }

/-- `extract_311_request` from `backend/extractor.py`.  The whole body —
capability call included — sits inside the `try`, so any failure (the call
raising, or the parsed payload being absent so that setting its attributes
raises) lands in the `except` handler, which returns the default record.
The result is `Option`-typed because the orchestrator tests the returned
value for truthiness (`if request_data:`). -/
def extract_311_request (cap : CapabilityOutcome ServiceRequest)
    (ts : Timestamps) : Option ServiceRequest :=
  match cap with
  | .parsed (some r) =>
      some { r with create_timestamp := some ts.create_ts
                    update_timestamp := some ts.update_ts
                    close_timestamp := some ts.close_ts }
  | .parsed none => some (default_service_request ts)
  | .raises => some (default_service_request ts)

/-- The response dict of `pipeline_311`, one `Option` field per key that any
branch may put in it (`none` = key absent).  `κ` is the type of the value
stored under the `classification` key: the typed `PreClassificationResult`
in `backend/pipeline.py`, a plain dict in the root-level `pipeline.py`. -/
structure PipelineOutput (κ : Type) where
  status : Option String := none
  action : Option String := none
  reason : Option String := none
  message : Option String := none
  classification : Option κ := none
  service_type : Option String := none
  service_subtype : Option String := none
  location_address : Option String := none
  location_details : Option (Option String) := none
  description : Option String := none
  priority : Option String := none
  additional_notes : Option (Option String) := none
  create_timestamp : Option (Option String) := none
  update_timestamp : Option (Option String) := none
  close_timestamp : Option (Option String) := none
  deriving DecidableEq

/-- `request_data.model_dump()`: every field of the `ServiceRequest` becomes
a key of the response dict; the `str`-enum priority dumps to its value. -/
def dumpRequest {κ : Type} (r : ServiceRequest) : PipelineOutput κ :=
  { service_type := some r.service_type
    service_subtype := some r.service_subtype
    location_address := some r.location_address
    location_details := some r.location_details
    description := some r.description
    priority := some r.priority.val
    additional_notes := some r.additional_notes
    create_timestamp := some r.create_timestamp
    update_timestamp := some r.update_timestamp
    close_timestamp := some r.close_timestamp }

/-- `pipeline_311` from `backend/pipeline.py` (lines 239–311), over the
classification it computed in step 1 and the value `extract_311_request`
returns when invoked.  The second component counts how many times the
branch taken invokes `extract_311_request`.  The trailing `else` of the
source (unexpected recommendation) is unreachable here because
`classification.recommendation` is the four-member enum. -/
def pipeline_311 (classification : PreClassificationResult)
    (request_data : Option ServiceRequest) :
    PipelineOutput PreClassificationResult × Nat :=
  match classification.recommendation with
  | .REDIRECT_TO_911 =>
      ({ status := some "emergency"
         action := some "Please call 911 immediately. This requires emergency services."
         reason := some classification.reason
         classification := some classification }, 0)
  | .REDIRECT_TO_OTHER_SERVICE =>
      ({ status := some "non_311"
         action := some "This issue should be directed to another service provider."
         reason := some classification.reason
         classification := some classification }, 0)
  | .EXPEDITE =>
      match request_data with
      | some r =>
          ({ (dumpRequest r : PipelineOutput PreClassificationResult) with
               priority := some "URGENT"
               classification := some classification
               status := some "expedited" }, 1)
      | none =>
          ({ status := some "error"
             message := some "Failed to extract request details, but this appears to be an urgent 311 matter."
             classification := some classification }, 1)
  | .PROCESS_NORMALLY =>
      match request_data with
      | some r =>
          ({ (dumpRequest r : PipelineOutput PreClassificationResult) with
               classification := some classification
               status := some "normal" }, 1)
      | none =>
          ({ status := some "error"
             message := some "Failed to extract request details."
             classification := some classification }, 1)

/-- The classification dict flowing through the dict-based variant
`pipeline.py` at the repository root: it is only read at its
`recommendation` and `reason` keys, and `recommendation` is an arbitrary
string there, so the trailing fallback branch is reachable. -/
structure ClassificationDict where
  recommendation : String
  reason : String
  deriving DecidableEq

/-- `pipeline_311` from the root-level `pipeline.py` (lines 1–73): same
branch structure as the backend version, but the recommendation is compared
as a string and the final `else` fallback is reachable. -/
def pipeline_311_dict (classification : ClassificationDict)
    (request_data : Option ServiceRequest) : PipelineOutput ClassificationDict :=
  if classification.recommendation = "REDIRECT_TO_911" then
    { status := some "emergency"
      action := some "Please call 911 immediately. This requires emergency services."
      reason := some classification.reason
      classification := some classification }
  else if classification.recommendation = "REDIRECT_TO_OTHER_SERVICE" then
    { status := some "non_311"
      action := some "This issue should be directed to another service provider."
      reason := some classification.reason
      classification := some classification }
  else if classification.recommendation = "EXPEDITE" then
    match request_data with
    | some r =>
        { (dumpRequest r : PipelineOutput ClassificationDict) with
            priority := some "URGENT"
            classification := some classification
            status := some "expedited" }
    | none =>
        { status := some "error"
          message := some "Failed to extract request details, but this appears to be an urgent 311 matter."
          classification := some classification }
  else if classification.recommendation = "PROCESS_NORMALLY" then
    match request_data with
    | some r =>
        { (dumpRequest r : PipelineOutput ClassificationDict) with
            classification := some classification
            status := some "normal" }
    | none =>
        { status := some "error"
          message := some "Failed to extract request details."
          classification := some classification }
  else
    { status := some "error"
      message := some "Could not determine how to process this request."
      classification := some classification }

/-- `RequestPriority` enum from `backend/data_models.py` (lowercase values). -/
inductive RequestPriority where
  | LOW
  | MEDIUM
  | HIGH
  | CRITICAL
  deriving DecidableEq

/-- The string value of each `RequestPriority` member. -/
def RequestPriority.val : RequestPriority → String
  | .LOW => "low"
  | .MEDIUM => "medium"
  | .HIGH => "high"
  | .CRITICAL => "critical"

/-- `RequestStatus` enum from `backend/data_models.py`. -/
inductive RequestStatus where
  | NEW
  | IN_PROGRESS
  | RESOLVED
  | CLOSED
  | INVALID
  deriving DecidableEq

/-- `Department` model from `backend/data_models.py`. -/
structure Department where
  name : String
  description : Option String := none
  deriving DecidableEq

/-- `RequestType` model from `backend/data_models.py`. -/
structure RequestType where
  name : String
  description : Option String := none
  deriving DecidableEq

/-- `GeoLocation` model from `backend/data_models.py`.  The latitude and
longitude are numeric-or-null in the source; every code path modelled here
stores `None` in them, so their numeric carrier type is irrelevant. -/
structure GeoLocation where
  latitude : Option Int := none
  longitude : Option Int := none
  address : Option String := none
  neighborhood : Option String := none
  city : String := "Boston"
  state : String := "MA"
  zip_code : Option String := none
  deriving DecidableEq

/-- `ValidationResult` model from `backend/data_models.py`. -/
structure ValidationResult where
  is_valid : Bool
  confidence : ℚ
  reasoning : String
  invalid_reason : Option String := none
  deriving DecidableEq

/-- `TriageResult` model from `backend/data_models.py`. -/
structure TriageResult where
  is_emergency : Bool
  confidence : ℚ
  reasoning : String
  priority : RequestPriority := .MEDIUM
  deriving DecidableEq

/-- `ClassificationResult` model from `backend/data_models.py`.  The
`alternative_classifications` field is a list of free-form dicts in the
source and is `None` on every modelled path; it is carried as an opaque
option on `Unit`. -/
structure ClassificationResult where
  request_type : RequestType
  department : Department
  confidence : ℚ
  reasoning : String
  alternative_classifications : Option Unit := none
  deriving DecidableEq

/-- `GeocodingResult` model from `backend/data_models.py`. -/
structure GeocodingResult where
  location : GeoLocation
  confidence : ℚ
  reasoning : String
  deriving DecidableEq

/-- `ProcessedServiceRequest` model from `backend/data_models.py`
(the `created_at` wall-clock default is omitted). -/
structure ProcessedServiceRequest where
  raw_input : String
  summary : String
  triage : TriageResult
  validation : ValidationResult
  classification : Option ClassificationResult := none
  geocoding : Option GeocodingResult := none
  status : RequestStatus := .NEW
  deriving DecidableEq

/-- The `is_actionable` property of `ProcessedServiceRequest`. -/
def ProcessedServiceRequest.is_actionable (p : ProcessedServiceRequest) : Bool :=
  !p.triage.is_emergency && p.validation.is_valid && p.classification.isSome

/-- The `validate_classification_presence` model validator of
`ProcessedServiceRequest` as a predicate: a valid request must carry a
classification. -/
def validate_classification_presence (p : ProcessedServiceRequest) : Bool :=
  !(p.validation.is_valid && !p.classification.isSome)

/-- The `requires_human_review` property of `LLMProcessingResult`
(`backend/data_models.py` lines 158–173), over the wrapped request and the
overall confidence score. -/
def requires_human_review (confidence_score : ℚ)
    (p : ProcessedServiceRequest) : Bool :=
  if confidence_score < 0.7 then true
  else if p.validation.is_valid && decide (p.validation.confidence < 0.8) then true
  else
    match p.classification with
    | some cl => decide (cl.confidence < 0.75)
    | none => false

/-- `create_triage_result` from `backend/classify_311.py` (lines 153–183). -/
def create_triage_result (pre_classification : PreClassificationResult) :
    TriageResult :=
  let priority : RequestPriority :=
    match pre_classification.recommendation with
    | .EXPEDITE => .CRITICAL
    | .REDIRECT_TO_911 => .CRITICAL
    | .PROCESS_NORMALLY => .MEDIUM
    | .REDIRECT_TO_OTHER_SERVICE => .LOW
  { is_emergency := pre_classification.is_emergency
    confidence := 0.85
    reasoning := pre_classification.reason
    priority := priority }

/-- `convert_to_processed_service_request` from `backend/pipeline.py`
(lines 114–236). -/
def convert_to_processed_service_request (conversation : String)
    (classification : PreClassificationResult)
    (request_data : Option ServiceRequest := none) : ProcessedServiceRequest :=
  let triage := create_triage_result classification
  let validation : ValidationResult :=
    { is_valid := classification.belongs_in_311 &&
        decide (classification.recommendation ≠ .REDIRECT_TO_911)
      confidence := 0.85
      reasoning := classification.reason
      invalid_reason :=
        if classification.belongs_in_311 then none else some classification.reason }
  let summary : String :=
    match request_data with
    | some r => r.description
    | none => "Unknown request"
  if !validation.is_valid then
    { raw_input := conversation
      summary := summary
      triage := triage
      validation := validation
      status := .INVALID }
  else
    match request_data with
    | none =>
        let department : Department :=
          { name := "Unknown", description := some "Department not identified" }
        let request_type : RequestType :=
          { name := "General Request"
            description := some "Request type not identified" }
        { raw_input := conversation
          summary := summary
          triage := triage
          validation := validation
          classification := some
            { request_type := request_type
              department := department
              confidence := 0.5
              reasoning := "Unable to determine specific classification from user input."
              alternative_classifications := none }
          status := .NEW }
    | some r =>
        let department : Department := { name := r.service_type, description := none }
        let request_type : RequestType :=
          { name := r.service_subtype, description := none }
        let classification_result : ClassificationResult :=
          { request_type := request_type
            department := department
            confidence := 0.8
            reasoning := "Based on the user's description, this appears to be a "
              ++ r.service_subtype ++ " issue handled by " ++ r.service_type ++ "."
            alternative_classifications := none }
        let base : ProcessedServiceRequest :=
          { raw_input := conversation
            summary := summary
            triage := triage
            validation := validation
            classification := some classification_result
            status := .NEW }
        let location : GeoLocation :=
          { latitude := none
            longitude := none
            address := some r.location_address
            neighborhood := none
            city := "Boston"
            state := "MA"
            zip_code := none }
        let geocoding : GeocodingResult :=
          { location := location
            confidence := 0.7
            reasoning := "Address provided by user: " ++ r.location_address }
        if r.location_address ≠ "" ∧ r.location_address ≠ "Unknown" then
          { base with geocoding := some geocoding }
        else base

/-- The location sub-dict `process_and_save_request` attaches when the
processed request has a geocoding result. -/
structure LocationInfo where
  address : Option String := none
  latitude : Option Int := none
  longitude : Option Int := none
  deriving DecidableEq

/-- The response dict of `process_and_save_request`: the keys of the
`pipeline_311` dict (returned verbatim on the two redirect paths and used
for `status`/`message`/`classification`/`priority` elsewhere) plus the keys
only this function writes. -/
structure ProcessAndSaveOutput extends PipelineOutput PreClassificationResult where
  id : Option String := none
  database_status : Option String := none
  requires_human_review : Option Bool := none
  is_actionable : Option Bool := none
  summary : Option String := none
  created_at : Option String := none
  department : Option String := none
  request_type : Option String := none
  is_emergency : Option Bool := none
  is_valid : Option Bool := none
  location : Option LocationInfo := none
  deriving DecidableEq

/-- `process_and_save_request` from `backend/pipeline.py` (lines 535–632).
`save_result` stands for the `save_to_database` call: `.ok (id, created_at)`
when the write commits, `.error msg` when it raises.  The second component
counts invocations of `extract_311_request` on the control path taken
(those of the delegated `pipeline_311` call included). -/
def process_and_save_request (conversation : String)
    (classification : PreClassificationResult)
    (request_data : Option ServiceRequest)
    (save_result : Except String (String × String)) :
    ProcessAndSaveOutput × Nat :=
  if classification.recommendation = .REDIRECT_TO_911 ∨
      classification.recommendation = .REDIRECT_TO_OTHER_SERVICE then
    let p := pipeline_311 classification request_data
    ({ toPipelineOutput := p.1 }, p.2)
  else
    match request_data with
    | none =>
        ({ toPipelineOutput :=
             { status := some "error"
               message := some "Failed to extract request details from a valid 311 request."
               classification := some classification } }, 1)
    | some r =>
        let processed_request :=
          convert_to_processed_service_request conversation classification (some r)
        match save_result with
        | .ok (request_id, created_at) =>
            ({ toPipelineOutput :=
                 { status := some "success"
                   priority := some processed_request.triage.priority.val }
               id := some request_id
               database_status := some "saved"
               requires_human_review := some (requires_human_review 0.85 processed_request)
               is_actionable := some processed_request.is_actionable
               summary := some processed_request.summary
               created_at := some created_at
               department :=
                 match processed_request.classification with
                 | some cl => some cl.department.name
                 | none => none
               request_type :=
                 match processed_request.classification with
                 | some cl => some cl.request_type.name
                 | none => none
               is_emergency := some processed_request.triage.is_emergency
               location :=
                 match processed_request.geocoding with
                 | some g =>
                     some { address := g.location.address
                            latitude := g.location.latitude
                            longitude := g.location.longitude }
                 | none => none }, 1)
        | .error e =>
            ({ toPipelineOutput :=
                 { status := some "error"
                   message := some ("Failed to save request to database: " ++ e) }
               database_status := some "error"
               summary := some processed_request.summary
               is_emergency := some processed_request.triage.is_emergency
               is_valid := some processed_request.validation.is_valid }, 1)

/-- A concrete timestamp triple, for instantiating theorems. -/
def sampleTimestamps : Timestamps :=
  { create_ts := "2025-01-01 10:00:00"
    update_ts := "2025-01-02 10:00:00"
    close_ts := "2025-01-04 10:00:00" }

/-- A concrete classification on the EXPEDITE path, for instantiating theorems. -/
def sampleExpediteClassification : PreClassificationResult :=
  { is_emergency := true
    belongs_in_311 := true
    reason := "Burst hydrant flooding the street"
    recommendation := .EXPEDITE }

/-- A concrete classification on the PROCESS_NORMALLY path, for instantiating
theorems. -/
def sampleNormalClassification : PreClassificationResult :=
  { is_emergency := false
    belongs_in_311 := true
    reason := "Routine pothole report"
    recommendation := .PROCESS_NORMALLY }

/-- A concrete extracted request whose extractor-assigned priority is LOW,
for instantiating theorems. -/
def sampleLowPriorityRequest : ServiceRequest :=
  { service_type := "Public Works"
    service_subtype := "Water Leak"
    location_address := "123 Main St"
    location_details := none
    description := "Water leaking from a hydrant"
    priority := .LOW }

end Svc311

namespace Svc311

/-- C2: the recommendation resolver maps the four (is_emergency,
belongs_in_311) combinations to exactly REDIRECT_TO_911, EXPEDITE,
REDIRECT_TO_OTHER_SERVICE and PROCESS_NORMALLY respectively, and every
classification result `pre_classify_request` returns satisfies
recommendation = REDIRECT_TO_911 iff is_emergency and not belongs_in_311. -/
theorem c2_resolver_truth_table :
    resolveRecommendation true false = .REDIRECT_TO_911 ∧
    resolveRecommendation true true = .EXPEDITE ∧
    resolveRecommendation false false = .REDIRECT_TO_OTHER_SERVICE ∧
    resolveRecommendation false true = .PROCESS_NORMALLY ∧
    ∀ (cap : CapabilityOutcome ClassifierPayload) (pc : PreClassificationResult),
      pre_classify_request cap = some pc →
      (pc.recommendation = .REDIRECT_TO_911 ↔
        pc.is_emergency = true ∧ pc.belongs_in_311 = false) := by
  refine ⟨by decide, by decide, by decide, by decide, ?_⟩
  intro cap pc h
  match cap with
  | .raises => simp [pre_classify_request] at h
  | .parsed none =>
      simp [pre_classify_request] at h
      subst h
      decide
  | .parsed (some p) =>
      simp [pre_classify_request] at h
      subst h
      rcases p with ⟨em, b, rs, rec⟩
      cases em <;> cases b <;> simp [resolveRecommendation]

/-- C2 witness: the truth-table and invariant instantiated on a concrete
parsed response with is_emergency = true, belongs_in_311 = false. -/
theorem c2_resolver_truth_table_witness :
    (PreClassificationResult.mk true false "Gas leak" .REDIRECT_TO_911).recommendation
        = .REDIRECT_TO_911 ↔
      (PreClassificationResult.mk true false "Gas leak" .REDIRECT_TO_911).is_emergency
          = true ∧
      (PreClassificationResult.mk true false "Gas leak" .REDIRECT_TO_911).belongs_in_311
          = false :=
  c2_resolver_truth_table.2.2.2.2
    (.parsed (some ⟨true, false, "Gas leak", .PROCESS_NORMALLY⟩))
    (PreClassificationResult.mk true false "Gas leak" .REDIRECT_TO_911)
    (by decide)

/-- C3 counterexample: when the extraction capability call raises, the code
returns the fabricated default record, not none — refuting the claim that
`extract_311_request` returns null on failure. -/
theorem c3_counterexample :
    extract_311_request .raises sampleTimestamps ≠ none ∧
    extract_311_request .raises sampleTimestamps =
      some (default_service_request sampleTimestamps) := by
  constructor
  · decide
  · rfl

/-- C3 (amended): when the extraction capability fails (the call raises, or
the response carries no parsed payload), `extract_311_request` returns the
default fabricated ServiceRequest (Unknown fields, MEDIUM priority), never
null; consequently the Orchestrator never reaches its extraction-failure
branch from a capability failure. -/
theorem c3_extractor_defaults_on_failure
    (cap : CapabilityOutcome ServiceRequest) (ts : Timestamps)
    (c : PreClassificationResult) :
    (extract_311_request cap ts).isSome = true ∧
    (cap = .raises ∨ cap = .parsed none →
      extract_311_request cap ts = some (default_service_request ts)) ∧
    (c.recommendation = .EXPEDITE ∨ c.recommendation = .PROCESS_NORMALLY →
      (pipeline_311 c (extract_311_request cap ts)).1.status ≠ some "error") := by
  refine ⟨?_, ?_, ?_⟩
  · match cap with
    | .raises => rfl
    | .parsed none => rfl
    | .parsed (some r) => rfl
  · rintro (rfl | rfl) <;> rfl
  · rintro (hrec | hrec) <;>
      match cap with
      | .raises => simp [extract_311_request, pipeline_311, hrec, dumpRequest]
      | .parsed none => simp [extract_311_request, pipeline_311, hrec, dumpRequest]
      | .parsed (some r) => simp [extract_311_request, pipeline_311, hrec, dumpRequest]

/-- C3 witness: the amended behaviour at a concrete failing capability call. -/
theorem c3_extractor_defaults_on_failure_witness :
    extract_311_request .raises sampleTimestamps =
      some (default_service_request sampleTimestamps) ∧
    (pipeline_311 sampleNormalClassification
        (extract_311_request .raises sampleTimestamps)).1.status ≠ some "error" :=
  ⟨(c3_extractor_defaults_on_failure .raises sampleTimestamps
      sampleNormalClassification).2.1 (Or.inl rfl),
   (c3_extractor_defaults_on_failure .raises sampleTimestamps
      sampleNormalClassification).2.2 (Or.inr rfl)⟩

/-- C4 counterexample: on the EXPEDITE path with a successful extraction
whose extractor-assigned priority is LOW, the final priority is the literal
"URGENT", which is not the value of any member of the priority enum
(LOW, MEDIUM, HIGH, CRITICAL) — in particular not the highest tier
CRITICAL. -/
theorem c4_counterexample :
    (pipeline_311 sampleExpediteClassification
        (some sampleLowPriorityRequest)).1.priority = some "URGENT" ∧
    (pipeline_311 sampleExpediteClassification
        (some sampleLowPriorityRequest)).1.priority ≠
      some ServiceRequestPriority.CRITICAL.val ∧
    (pipeline_311 sampleExpediteClassification
        (some sampleLowPriorityRequest)).1.priority ≠
      some ServiceRequestPriority.HIGH.val ∧
    (pipeline_311 sampleExpediteClassification
        (some sampleLowPriorityRequest)).1.priority ≠
      some ServiceRequestPriority.MEDIUM.val ∧
    (pipeline_311 sampleExpediteClassification
        (some sampleLowPriorityRequest)).1.priority ≠
      some ServiceRequestPriority.LOW.val := by
  decide

/-- C4 (amended): on the EXPEDITE path, whenever extraction succeeds, the
priority of the final pipeline result is unconditionally overridden to the
literal string "URGENT" (a value outside the extractor's priority enum),
whatever priority the Extractor itself assigned; the override is applied to
the response assembled from the completed extraction, whose other fields are
taken unchanged from the extraction result. -/
theorem c4_expedite_forces_urgent
    (c : PreClassificationResult) (r : ServiceRequest)
    (h : c.recommendation = .EXPEDITE) :
    (pipeline_311 c (some r)).1.priority = some "URGENT" ∧
    (pipeline_311 c (some r)).1.description = some r.description ∧
    (pipeline_311 c (some r)).1.status = some "expedited" := by
  simp [pipeline_311, h, dumpRequest]

/-- C4 witness: the override at a concrete EXPEDITE classification and a
concrete extraction result with priority LOW. -/
theorem c4_expedite_forces_urgent_witness :
    (pipeline_311 sampleExpediteClassification
        (some sampleLowPriorityRequest)).1.priority = some "URGENT" ∧
    (pipeline_311 sampleExpediteClassification
        (some sampleLowPriorityRequest)).1.description =
      some sampleLowPriorityRequest.description ∧
    (pipeline_311 sampleExpediteClassification
        (some sampleLowPriorityRequest)).1.status = some "expedited" :=
  c4_expedite_forces_urgent sampleExpediteClassification
    sampleLowPriorityRequest rfl

/-- C6 counterexample: when the classification capability call itself raises
(timeout, capability unavailable), `pre_classify_request` does not return the
fail-closed default — the call sits outside the `try` block, so the
exception propagates and no result is produced. -/
theorem c6_counterexample :
    pre_classify_request .raises = none ∧
    (none : Option PreClassificationResult) ≠ some failClosedDefault := by
  constructor
  · rfl
  · decide

/-- C6 (amended): when the capability's completed response carries no parsed
payload, the Classifier returns the fail-closed default (is_emergency =
false, belongs_in_311 = true, a non-empty diagnostic reason, recommendation
PROCESS_NORMALLY) and the pipeline proceeds into the normal-extraction path
(extraction is invoked and a successful extraction yields status "normal");
but an exception raised by the capability call itself propagates out of the
Classifier instead of producing the default. -/
theorem c6_fail_closed_on_unparsed_response
    (r : ServiceRequest) (e : Option ServiceRequest) :
    pre_classify_request (.parsed none) = some failClosedDefault ∧
    failClosedDefault.is_emergency = false ∧
    failClosedDefault.belongs_in_311 = true ∧
    failClosedDefault.reason ≠ "" ∧
    failClosedDefault.recommendation = .PROCESS_NORMALLY ∧
    (pipeline_311 failClosedDefault (some r)).1.status = some "normal" ∧
    (pipeline_311 failClosedDefault e).2 = 1 ∧
    pre_classify_request .raises = none := by
  refine ⟨rfl, rfl, rfl, by decide, rfl, ?_, ?_, rfl⟩
  · simp [pipeline_311, failClosedDefault, dumpRequest]
  · cases e <;> simp [pipeline_311, failClosedDefault, dumpRequest]

/-- C1: the pipeline's output tag corresponds bidirectionally to the
recommendation — status "emergency" iff REDIRECT_TO_911, status "non_311"
iff REDIRECT_TO_OTHER_SERVICE, and the Processed statuses
("expedited"/"normal") together with the extraction-failure status ("error")
occur exactly when the recommendation is EXPEDITE or PROCESS_NORMALLY. -/
theorem c1_output_tag_matches_recommendation
    (c : PreClassificationResult) (e : Option ServiceRequest) :
    ((pipeline_311 c e).1.status = some "emergency" ↔
      c.recommendation = .REDIRECT_TO_911) ∧
    ((pipeline_311 c e).1.status = some "non_311" ↔
      c.recommendation = .REDIRECT_TO_OTHER_SERVICE) ∧
    ((pipeline_311 c e).1.status = some "expedited" ∨
        (pipeline_311 c e).1.status = some "normal" ∨
        (pipeline_311 c e).1.status = some "error" ↔
      c.recommendation = .EXPEDITE ∨ c.recommendation = .PROCESS_NORMALLY) := by
  rcases c with ⟨em, b, rs, rec⟩
  cases rec <;> cases e <;> simp [pipeline_311, dumpRequest]

/-- C5: the Orchestrator invokes the Extractor exactly once iff the resolved
recommendation is EXPEDITE or PROCESS_NORMALLY, and never otherwise — both
in `pipeline_311` and in `process_and_save_request`. -/
theorem c5_extraction_iff_serviceable
    (conv : String) (c : PreClassificationResult) (e : Option ServiceRequest)
    (s : Except String (String × String)) :
    ((pipeline_311 c e).2 = 1 ↔
      c.recommendation = .EXPEDITE ∨ c.recommendation = .PROCESS_NORMALLY) ∧
    ((pipeline_311 c e).2 = 0 ↔
      c.recommendation = .REDIRECT_TO_911 ∨
        c.recommendation = .REDIRECT_TO_OTHER_SERVICE) ∧
    ((process_and_save_request conv c e s).2 = 1 ↔
      c.recommendation = .EXPEDITE ∨ c.recommendation = .PROCESS_NORMALLY) ∧
    ((process_and_save_request conv c e s).2 = 0 ↔
      c.recommendation = .REDIRECT_TO_911 ∨
        c.recommendation = .REDIRECT_TO_OTHER_SERVICE) := by
  rcases c with ⟨em, b, rs, rec⟩
  cases rec <;> cases e <;> cases s <;>
    simp [pipeline_311, process_and_save_request, dumpRequest]

/-- C7: every record the assembler produces with is_valid = true carries a
classification (it satisfies the model's classification-presence validator),
and when extraction is absent for a valid request a placeholder
classification — department "Unknown", request type "General Request",
confidence 0.5 — is synthesized. -/
theorem c7_valid_record_has_classification
    (conv : String) (c : PreClassificationResult) (rd : Option ServiceRequest) :
    ((convert_to_processed_service_request conv c rd).validation.is_valid = true →
      ((convert_to_processed_service_request conv c rd).classification.isSome = true)) ∧
    validate_classification_presence
      (convert_to_processed_service_request conv c rd) = true ∧
    ((convert_to_processed_service_request conv c rd).validation.is_valid = true →
      rd = none →
      (convert_to_processed_service_request conv c rd).classification = some
        { request_type :=
            { name := "General Request"
              description := some "Request type not identified" }
          department :=
            { name := "Unknown", description := some "Department not identified" }
          confidence := 0.5
          reasoning := "Unable to determine specific classification from user input."
          alternative_classifications := none }) := by
  rcases c with ⟨em, b, rs, rec⟩
  cases rec <;> cases b <;> cases rd <;>
    simp [convert_to_processed_service_request, validate_classification_presence,
      create_triage_result] <;>
    split <;> simp

/-- C7 witness: a valid serviceable classification with extraction absent
yields the placeholder classification. -/
theorem c7_valid_record_has_classification_witness :
    (convert_to_processed_service_request "pothole report"
        sampleNormalClassification none).classification.isSome = true ∧
    (convert_to_processed_service_request "pothole report"
        sampleNormalClassification none).classification = some
      { request_type :=
          { name := "General Request"
            description := some "Request type not identified" }
        department :=
          { name := "Unknown", description := some "Department not identified" }
        confidence := 0.5
        reasoning := "Unable to determine specific classification from user input."
        alternative_classifications := none } :=
  ⟨(c7_valid_record_has_classification "pothole report"
      sampleNormalClassification none).1 (by decide),
   (c7_valid_record_has_classification "pothole report"
      sampleNormalClassification none).2.2 (by decide) rfl⟩

/-- C8: the assembler flags a record invalid exactly when belongs_in_311 is
false or the recommendation is REDIRECT_TO_911; an invalid record has status
INVALID and carries no classification, and in every other case the record
has is_valid = true and status NEW. -/
theorem c8_invalid_flag_iff
    (conv : String) (c : PreClassificationResult) (rd : Option ServiceRequest) :
    ((convert_to_processed_service_request conv c rd).validation.is_valid = false ↔
      c.belongs_in_311 = false ∨ c.recommendation = .REDIRECT_TO_911) ∧
    ((convert_to_processed_service_request conv c rd).validation.is_valid = false →
      (convert_to_processed_service_request conv c rd).status = .INVALID ∧
      (convert_to_processed_service_request conv c rd).classification = none) ∧
    ((convert_to_processed_service_request conv c rd).validation.is_valid = true →
      (convert_to_processed_service_request conv c rd).status = .NEW) := by
  rcases c with ⟨em, b, rs, rec⟩
  cases rec <;> cases b <;> cases rd <;>
    simp [convert_to_processed_service_request, create_triage_result] <;>
    split <;> simp

/-- C8 witness: a non-311 classification yields an invalid record with
status INVALID and no classification. -/
theorem c8_invalid_flag_iff_witness :
    ((convert_to_processed_service_request "internet outage"
        (PreClassificationResult.mk false false "Utility issue"
          .REDIRECT_TO_OTHER_SERVICE) none).validation.is_valid = false ↔
      (PreClassificationResult.mk false false "Utility issue"
          .REDIRECT_TO_OTHER_SERVICE).belongs_in_311 = false ∨
        (PreClassificationResult.mk false false "Utility issue"
          .REDIRECT_TO_OTHER_SERVICE).recommendation = .REDIRECT_TO_911) ∧
    (convert_to_processed_service_request "internet outage"
        (PreClassificationResult.mk false false "Utility issue"
          .REDIRECT_TO_OTHER_SERVICE) none).status = .INVALID ∧
    (convert_to_processed_service_request "internet outage"
        (PreClassificationResult.mk false false "Utility issue"
          .REDIRECT_TO_OTHER_SERVICE) none).classification = none :=
  ⟨(c8_invalid_flag_iff "internet outage"
      (PreClassificationResult.mk false false "Utility issue"
        .REDIRECT_TO_OTHER_SERVICE) none).1,
   (c8_invalid_flag_iff "internet outage"
      (PreClassificationResult.mk false false "Utility issue"
        .REDIRECT_TO_OTHER_SERVICE) none).2.1 (by decide)⟩

/-- C9: when the storage write fails after a valid result was produced,
`process_and_save_request` reports the failure with the in-memory result
intact — summary, emergency flag and validity flag taken from the computed
request — and both its status and its database_status differ from the values
returned on a successful save ("error"/"error" vs "success"/"saved"). -/
theorem c9_persistence_failure_preserves_result
    (conv : String) (c : PreClassificationResult) (r : ServiceRequest)
    (request_id created_at err : String)
    (h : c.recommendation = .EXPEDITE ∨ c.recommendation = .PROCESS_NORMALLY) :
    (process_and_save_request conv c (some r) (.error err)).1.summary =
      some (convert_to_processed_service_request conv c (some r)).summary ∧
    (process_and_save_request conv c (some r) (.error err)).1.is_emergency =
      some (convert_to_processed_service_request conv c (some r)).triage.is_emergency ∧
    (process_and_save_request conv c (some r) (.error err)).1.is_valid =
      some (convert_to_processed_service_request conv c (some r)).validation.is_valid ∧
    (process_and_save_request conv c (some r) (.error err)).1.database_status =
      some "error" ∧
    (process_and_save_request conv c (some r)
        (.ok (request_id, created_at))).1.database_status = some "saved" ∧
    (process_and_save_request conv c (some r) (.error err)).1.database_status ≠
      (process_and_save_request conv c (some r)
        (.ok (request_id, created_at))).1.database_status ∧
    (process_and_save_request conv c (some r) (.error err)).1.status =
      some "error" ∧
    (process_and_save_request conv c (some r)
        (.ok (request_id, created_at))).1.status = some "success" := by
  rcases h with h | h <;> simp [process_and_save_request, h]

/-- C9 witness: the persistence-failure contract at a concrete normal-path
request. -/
theorem c9_persistence_failure_preserves_result_witness :
    (process_and_save_request "hydrant leak" sampleNormalClassification
        (some sampleLowPriorityRequest) (.error "connection refused")).1.summary =
      some (convert_to_processed_service_request "hydrant leak"
        sampleNormalClassification (some sampleLowPriorityRequest)).summary ∧
    (process_and_save_request "hydrant leak" sampleNormalClassification
        (some sampleLowPriorityRequest)
        (.error "connection refused")).1.database_status = some "error" ∧
    (process_and_save_request "hydrant leak" sampleNormalClassification
        (some sampleLowPriorityRequest)
        (.ok ("id-1", "2025-01-01T10:00:00"))).1.database_status = some "saved" := by
  have h := c9_persistence_failure_preserves_result "hydrant leak"
    sampleNormalClassification sampleLowPriorityRequest
    "id-1" "2025-01-01T10:00:00" "connection refused" (Or.inr rfl)
  exact ⟨h.1, h.2.2.2.1, h.2.2.2.2.1⟩

/-- C10: on every path — the four recommendation branches of the typed
pipeline and, in the dict-based variant, the fallback branch for an
unrecognized recommendation string as well — the returned dict carries a
"status" key and a "classification" key holding the classifier's result. -/
theorem c10_status_and_classification_always_attached
    (c : PreClassificationResult) (e : Option ServiceRequest)
    (d : ClassificationDict) :
    ((pipeline_311 c e).1.status).isSome = true ∧
    (pipeline_311 c e).1.classification = some c ∧
    ((pipeline_311_dict d e).status).isSome = true ∧
    (pipeline_311_dict d e).classification = some d := by
  refine ⟨?_, ?_, ?_, ?_⟩
  · rcases c with ⟨em, b, rs, rec⟩
    cases rec <;> cases e <;> simp [pipeline_311, dumpRequest]
  · rcases c with ⟨em, b, rs, rec⟩
    cases rec <;> cases e <;> simp [pipeline_311, dumpRequest]
  · cases e <;> simp only [pipeline_311_dict] <;> split_ifs <;>
      simp [dumpRequest]
  · cases e <;> simp only [pipeline_311_dict] <;> split_ifs <;>
      simp [dumpRequest]

end Svc311
